import Mathlib

/-!
Shallow embedding of the GitHub activity tracker's event aggregation and
statistics engine.

Conventions used throughout:
* JS timestamps (`Date`, epoch values) are modelled as `Int` milliseconds.
* Calendar-day bucketing (`format(d, 'yyyy-MM-dd')`) is modelled as the
  epoch-day index `t.fdiv 86400000`; two timestamps share a day key exactly
  when they format to the same date (UTC reading of the calendar).
* A JS value that may be `undefined` is an `Option`; JS truthiness of such a
  value is `Option.getD` with the falsy default.
* A thrown `TypeError` (property access on `undefined`) is `Option.none` in
  the result of the function that would throw.
-/

namespace GHTracker

/-- Milliseconds in one day, as used by date-fns day arithmetic. -/
def dayMs : Int := 86400000

/-- Day-bucket key of a timestamp: models `format(d, 'yyyy-MM-dd')`. -/
def dayKey (t : Int) : Int := Int.fdiv t dayMs

/-- `startOfDay` from date-fns: midnight of the timestamp's calendar day. -/
def startOfDay (t : Int) : Int := dayKey t * dayMs

/-- `subDays(t, d)` from date-fns. -/
def subDays (t : Int) (d : Nat) : Int := t - (d : Int) * dayMs

/-- Template-literal rendering of a possibly-`undefined` string
(`` `${x}` `` where `x : string | undefined`). -/
def jsStr (o : Option String) : String := o.getD "undefined"

/-- JS `String.prototype.replace` with a string pattern: replaces only the
first occurrence of `pat` by the empty string. -/
def jsReplaceFirst (s pat : String) : String :=
  match s.splitOn pat with
  | [] => s
  | [_] => s
  | x :: y :: rest =>
      x ++ y ++ (if rest.isEmpty then "" else pat ++ String.intercalate pat rest)

/-- Substring occurrence check on character lists (structural form of JS
`String.prototype.includes`). -/
def jsIncludesAux (pat : List Char) : List Char → Bool
  | [] => pat.isEmpty
  | c :: rest => pat.isPrefixOf (c :: rest) || jsIncludesAux pat rest

/-- JS `String.prototype.includes`. -/
def jsIncludes (s pat : String) : Bool := jsIncludesAux pat.data s.data

/-- JS `String.prototype.startsWith`. -/
def jsStartsWith (s pre : String) : Bool := pre.data.isPrefixOf s.data

/-! ## Raw event payload model (`payload: any` in the source types)

Only the payload fields that the repository's code dereferences are
modelled; every field that the GitHub API may omit is an `Option`.  -/

/-- One commit object inside a `PushEvent` payload. -/
structure CommitPayload where
  sha : String
  message : String
  deriving DecidableEq, Repr

/-- `payload.pull_request` as dereferenced by the repository. -/
structure PullRequestPayload where
  number : Nat
  title : String
  state : String
  merged : Option Bool := none
  html_url : String
  user_login : String := ""
  assignees : Option (List String) := none
  requested_reviewers : Option (List String) := none
  deriving DecidableEq, Repr

/-- `payload.issue` as dereferenced by the repository. -/
structure IssuePayload where
  number : Nat
  title : String
  state : String
  html_url : String
  user_login : String := ""
  assignees : Option (List String) := none
  deriving DecidableEq, Repr

/-- `payload.comment` as dereferenced by the repository. -/
structure CommentPayload where
  html_url : String
  body : Option String := none
  deriving DecidableEq, Repr

/-- `payload.forkee` as dereferenced by the repository. -/
structure ForkeePayload where
  full_name : String
  html_url : String
  deriving DecidableEq, Repr

/-- `payload.release` as dereferenced by the repository. -/
structure ReleasePayload where
  tag_name : String
  name : String
  html_url : String
  deriving DecidableEq, Repr

/-- `payload.review` as dereferenced by the repository. -/
structure ReviewPayload where
  html_url : String
  state : String
  deriving DecidableEq, Repr

/-- The untyped `payload: any` of a raw GitHub event, restricted to the
fields the repository reads. Every field may be absent. -/
structure EventPayload where
  action : Option String := none
  commits : Option (List CommitPayload) := none
  ref : Option String := none
  ref_type : Option String := none
  pull_request : Option PullRequestPayload := none
  issue : Option IssuePayload := none
  comment : Option CommentPayload := none
  forkee : Option ForkeePayload := none
  release : Option ReleasePayload := none
  review : Option ReviewPayload := none
  size : Option Nat := none
  deriving DecidableEq, Repr

/-- `GitHubActivity` from `cli/repositorytracker/src/types/index.ts`
(`created_at` kept as its epoch-millisecond value). -/
structure GitHubActivity where
  id : String
  type : String
  actorLogin : String
  repoName : String
  payload : EventPayload
  created_at : Int
  deriving DecidableEq, Repr

/-- `ProcessedActivity.details` (`Record<string, any>`): the keys that
`processEvent` writes and downstream code reads. -/
structure ActivityDetails where
  branch : Option String := none
  commits : Option Nat := none
  messages : Option (List String) := none
  pr_number : Option Nat := none
  pr_title : Option String := none
  pr_state : Option String := none
  merged : Option Bool := none
  issue_number : Option Nat := none
  issue_title : Option String := none
  issue_state : Option String := none
  comment_preview : Option String := none
  fork_name : Option String := none
  tag : Option String := none
  name : Option String := none
  ref_type : Option String := none
  ref : Option String := none
  review_state : Option String := none
  deriving DecidableEq, Repr

/-- `ProcessedActivity` from the CLI types. The `action` field is a plain
`string` in TS but can receive `undefined` at runtime (for a
`PullRequestEvent`/`IssuesEvent`/`ReleaseEvent` payload with no `action`);
that value renders and compares exactly like the literal `"undefined"` in
every use in this repository, so it is modelled by that string. -/
structure ProcessedActivity where
  id : String
  type : String
  action : String
  repo : String
  description : String
  timestamp : Int
  url : Option String := none
  details : Option ActivityDetails := none
  deriving DecidableEq, Repr

/-- `ActivityProcessor.processEvent` from `src/lib/activity-processor.ts`.
Returns `none` exactly when the TS code would throw a `TypeError`
(dereferencing a missing payload sub-object in one of the recognized
cases); otherwise returns the one `ProcessedActivity` the code builds. -/
def processEvent (event : GitHubActivity) : Option ProcessedActivity :=
  if event.type = "PushEvent" then
    let commitCount : Nat := (event.payload.commits.map (·.length)).getD 0
    let branch : Option String :=
      event.payload.ref.map (fun r => jsReplaceFirst r "refs/heads/")
    some { id := event.id, type := event.type, repo := event.repoName,
           timestamp := event.created_at,
           action := "pushed",
           description := "Pushed " ++ toString commitCount ++ " commit(s) to "
             ++ jsStr branch,
           details := some { branch := branch,
                             commits := some commitCount,
                             messages :=
                               some ((event.payload.commits.getD []).map (·.message)) } }
  else if event.type = "PullRequestEvent" then
    match event.payload.pull_request with
    | none => none
    | some pr =>
      some { id := event.id, type := event.type, repo := event.repoName,
             timestamp := event.created_at,
             action := jsStr event.payload.action,
             description := jsStr event.payload.action ++ " PR #"
               ++ toString pr.number ++ ": " ++ pr.title,
             url := some pr.html_url,
             details := some { pr_number := some pr.number,
                               pr_title := some pr.title,
                               pr_state := some pr.state,
                               merged := pr.merged } }
  else if event.type = "IssuesEvent" then
    match event.payload.issue with
    | none => none
    | some issue =>
      some { id := event.id, type := event.type, repo := event.repoName,
             timestamp := event.created_at,
             action := jsStr event.payload.action,
             description := jsStr event.payload.action ++ " issue #"
               ++ toString issue.number ++ ": " ++ issue.title,
             url := some issue.html_url,
             details := some { issue_number := some issue.number,
                               issue_title := some issue.title,
                               issue_state := some issue.state } }
  else if event.type = "IssueCommentEvent" then
    match event.payload.issue, event.payload.comment with
    | some issue, some comment =>
      some { id := event.id, type := event.type, repo := event.repoName,
             timestamp := event.created_at,
             action := "commented",
             description := "Commented on issue #" ++ toString issue.number
               ++ ": " ++ issue.title,
             url := some comment.html_url,
             details := some { issue_number := some issue.number,
                               issue_title := some issue.title,
                               comment_preview := comment.body.map (·.take 100) } }
    | _, _ => none
  else if event.type = "CreateEvent" then
    some { id := event.id, type := event.type, repo := event.repoName,
           timestamp := event.created_at,
           action := "created",
           description := "Created " ++ jsStr event.payload.ref_type ++ " "
             ++ (event.payload.ref.getD ""),
           details := some { ref_type := event.payload.ref_type,
                             ref := event.payload.ref } }
  else if event.type = "DeleteEvent" then
    some { id := event.id, type := event.type, repo := event.repoName,
           timestamp := event.created_at,
           action := "deleted",
           description := "Deleted " ++ jsStr event.payload.ref_type ++ " "
             ++ jsStr event.payload.ref,
           details := some { ref_type := event.payload.ref_type,
                             ref := event.payload.ref } }
  else if event.type = "ForkEvent" then
    match event.payload.forkee with
    | none => none
    | some forkee =>
      some { id := event.id, type := event.type, repo := event.repoName,
             timestamp := event.created_at,
             action := "forked",
             description := "Forked repository to " ++ forkee.full_name,
             url := some forkee.html_url,
             details := some { fork_name := some forkee.full_name } }
  else if event.type = "WatchEvent" then
    some { id := event.id, type := event.type, repo := event.repoName,
           timestamp := event.created_at,
           action := "starred",
           description := "Starred repository" }
  else if event.type = "ReleaseEvent" then
    match event.payload.release with
    | none => none
    | some release =>
      some { id := event.id, type := event.type, repo := event.repoName,
             timestamp := event.created_at,
             action := jsStr event.payload.action,
             description := jsStr event.payload.action ++ " release "
               ++ release.tag_name ++ ": " ++ release.name,
             url := some release.html_url,
             details := some { tag := some release.tag_name,
                               name := some release.name } }
  else if event.type = "PullRequestReviewEvent" then
    match event.payload.pull_request, event.payload.review with
    | some pr, some review =>
      some { id := event.id, type := event.type, repo := event.repoName,
             timestamp := event.created_at,
             action := "reviewed",
             description := "Reviewed PR #" ++ toString pr.number ++ ": " ++ pr.title,
             url := some review.html_url,
             details := some { pr_number := some pr.number,
                               pr_title := some pr.title,
                               review_state := some review.state } }
    | _, _ => none
  else if event.type = "PullRequestReviewCommentEvent" then
    match event.payload.pull_request, event.payload.comment with
    | some pr, some comment =>
      some { id := event.id, type := event.type, repo := event.repoName,
             timestamp := event.created_at,
             action := "review_commented",
             description := "Commented on PR #" ++ toString pr.number ++ " review",
             url := some comment.html_url,
             details := some { pr_number := some pr.number,
                               pr_title := some pr.title } }
    | _, _ => none
  else
    some { id := event.id, type := event.type, repo := event.repoName,
           timestamp := event.created_at,
           action := (jsReplaceFirst event.type "Event").toLower,
           description := event.type ++ " on " ++ event.repoName }

/-! ## Statistics Aggregator: `summarizeActivities`
(`src/lib/activity-processor.ts`) -/

/-- Bump a counter in a JS `Record<K, number>`
(`m[k] = (m[k] || 0) + 1`): in-place increment for an existing key,
append for a new key (records iterate in key-insertion order). -/
def bumpAssoc {α : Type} [DecidableEq α] : List (α × Nat) → α → List (α × Nat)
  | [], k => [(k, 1)]
  | (k', n) :: rest, k =>
      if k' = k then (k', n + 1) :: rest else (k', n) :: bumpAssoc rest k

/-- Lookup in a JS `Record<K, V>` modelled as an association list. -/
def findAssoc {α β : Type} [DecidableEq α] : List (α × β) → α → Option β
  | [], _ => none
  | (k', v) :: rest, k => if k' = k then some v else findAssoc rest k

/-- Count read from a JS `Record<K, number>` (`m[k] || 0`). -/
def assocCount {α : Type} [DecidableEq α] (m : List (α × Nat)) (k : α) : Nat :=
  (findAssoc m k).getD 0

/-- `Set.add` on a JS `Set<string>`, iterated in insertion order. -/
def addToSet (l : List String) (s : String) : List String :=
  if s ∈ l then l else l ++ [s]

/-- `ActivitySummary` from the CLI types. `byDay` keys are day-bucket
indexes (see `dayKey`); `commits.repos` is the commit-repo set in
insertion order. -/
structure ActivitySummary where
  totalActivities : Nat
  byType : List (String × Nat)
  byRepo : List (String × Nat)
  byDay : List (Int × Nat)
  recentActivities : List ProcessedActivity
  prOpened : Nat
  prClosed : Nat
  prMerged : Nat
  prReviewed : Nat
  issOpened : Nat
  issClosed : Nat
  issCommented : Nat
  commitsTotal : Nat
  commitRepos : List String
  deriving DecidableEq, Repr

/-- Truthiness of `activity.details?.merged`. -/
def detailsMerged (a : ProcessedActivity) : Bool :=
  ((a.details.bind (·.merged)).getD false)

/-- `activity.details?.commits || 0`. -/
def detailsCommits (a : ProcessedActivity) : Nat :=
  ((a.details.bind (·.commits)).getD 0)

/-- Loop body of `summarizeActivities`: one iteration of
`for (const activity of filteredActivities)`. -/
def summarizeStep (s : ActivitySummary) (activity : ProcessedActivity) :
    ActivitySummary :=
  let s := { s with byType := bumpAssoc s.byType activity.type,
                    byRepo := bumpAssoc s.byRepo activity.repo,
                    byDay := bumpAssoc s.byDay (dayKey activity.timestamp) }
  if activity.type = "PullRequestEvent" then
    let s := if activity.action = "opened" then { s with prOpened := s.prOpened + 1 } else s
    if activity.action = "closed" then
      if detailsMerged activity then { s with prMerged := s.prMerged + 1 }
      else { s with prClosed := s.prClosed + 1 }
    else s
  else if activity.type = "PullRequestReviewEvent" then
    { s with prReviewed := s.prReviewed + 1 }
  else if activity.type = "IssuesEvent" then
    let s := if activity.action = "opened" then { s with issOpened := s.issOpened + 1 } else s
    if activity.action = "closed" then { s with issClosed := s.issClosed + 1 } else s
  else if activity.type = "IssueCommentEvent" then
    { s with issCommented := s.issCommented + 1 }
  else if activity.type = "PushEvent" then
    { s with commitsTotal := s.commitsTotal + detailsCommits activity,
             commitRepos := addToSet s.commitRepos activity.repo }
  else s

/-- The lower cutoff `subDays(startOfDay(now), daysBack)` used by
`summarizeActivities`. -/
def summaryCutoff (now : Int) (daysBack : Nat) : Int :=
  subDays (startOfDay now) daysBack

/-- `ActivityProcessor.summarizeActivities`. The impure `new Date()` is the
explicit `now` argument; everything else follows the source line by line. -/
def summarizeActivities (now : Int) (activities : List ProcessedActivity)
    (daysBack : Nat := 7) : ActivitySummary :=
  let cutoffDate := summaryCutoff now daysBack
  let filteredActivities := activities.filter (fun a => cutoffDate ≤ a.timestamp)
  let init : ActivitySummary :=
    { totalActivities := filteredActivities.length,
      byType := [], byRepo := [], byDay := [],
      recentActivities := filteredActivities.take 20,
      prOpened := 0, prClosed := 0, prMerged := 0, prReviewed := 0,
      issOpened := 0, issClosed := 0, issCommented := 0,
      commitsTotal := 0, commitRepos := [] }
  filteredActivities.foldl summarizeStep init

/-! ## Web dashboard model (`web/src/...`) -/

/-- The web `Activity` interface: a raw event as consumed by the dashboard
(`id`, `type`, `created_at`, `repo.name`, `payload`, `actor.login`). -/
structure WebActivity where
  id : String
  type : String
  created_at : Int
  repoName : String
  payload : EventPayload
  actorLogin : String
  deriving DecidableEq, Repr

/-- Truthiness of `activity.payload.pull_request?.merged`. -/
def payloadMerged (a : WebActivity) : Bool :=
  ((a.payload.pull_request.bind (·.merged)).getD false)

/-- The `pullRequests` counter object of the web stats. -/
structure PRCounts where
  opened : Nat
  closed : Nat
  merged : Nat
  deriving DecidableEq, Repr

/-- The `pullRequestsExtended` counter object (numeric keys only). -/
structure PRCountsExt where
  opened : Nat
  closed : Nat
  merged : Nat
  reviewed : Nat
  pendingReview : Nat
  deriving DecidableEq, Repr

/-- The `issues` counter object of the web stats. -/
structure IssueCounts where
  opened : Nat
  closed : Nat
  commented : Nat
  deriving DecidableEq, Repr

/-- Dynamic-key increment `stats.pullRequests[action]++` from
`statsCalculator.ts`: an action string that is not one of the object's
numeric keys leaves all three counters unchanged (JS would create an
unrelated `NaN` property). -/
def bumpPRCounts (pr : PRCounts) (action : String) : PRCounts :=
  if action = "opened" then { pr with opened := pr.opened + 1 }
  else if action = "closed" then { pr with closed := pr.closed + 1 }
  else if action = "merged" then { pr with merged := pr.merged + 1 }
  else pr

/-- Dynamic-key increment `stats.pullRequestsExtended[action]++`. -/
def bumpPRCountsExt (pr : PRCountsExt) (action : String) : PRCountsExt :=
  if action = "opened" then { pr with opened := pr.opened + 1 }
  else if action = "closed" then { pr with closed := pr.closed + 1 }
  else if action = "merged" then { pr with merged := pr.merged + 1 }
  else if action = "reviewed" then { pr with reviewed := pr.reviewed + 1 }
  else if action = "pendingReview" then { pr with pendingReview := pr.pendingReview + 1 }
  else pr

/-- Guarded increment for the `issues` object of `statsCalculator.ts`
(`if (issueAction in stats.issues) stats.issues[issueAction]++`). -/
def bumpIssueCounts (iss : IssueCounts) (action : String) : IssueCounts :=
  if action = "opened" then { iss with opened := iss.opened + 1 }
  else if action = "closed" then { iss with closed := iss.closed + 1 }
  else if action = "commented" then { iss with commented := iss.commented + 1 }
  else iss

/-- Projection of `EnhancedStats` onto the fields computed by
`statsCalculator.ts` that this development reasons about
(`totalActivities`, the PR/issue funnels, `commits`, the per-day activity
record, and the streak counters). The omitted fields of the source record
never feed back into these. -/
structure EnhancedStatsProj where
  totalActivities : Nat
  pullRequests : PRCounts
  pullRequestsExtended : PRCountsExt
  issues : IssueCounts
  commits : Nat
  dailyActivities : List (Int × Nat)
  streakDays : Nat
  longestStreak : Nat
  deriving DecidableEq, Repr

/-- One iteration of the `activities.forEach` loop of
`calculateEnhancedStats` in `statsCalculator.ts`, restricted to the
projected fields. -/
def scStep (s : EnhancedStatsProj) (activity : WebActivity) : EnhancedStatsProj :=
  let s := { s with dailyActivities :=
                      bumpAssoc s.dailyActivities (dayKey activity.created_at) }
  if activity.type = "PullRequestEvent" then
    let act := jsStr activity.payload.action
    let s := { s with pullRequests := bumpPRCounts s.pullRequests act,
                      pullRequestsExtended := bumpPRCountsExt s.pullRequestsExtended act }
    if act = "closed" && payloadMerged activity then
      { s with pullRequests := { s.pullRequests with merged := s.pullRequests.merged + 1 },
               pullRequestsExtended :=
                 { s.pullRequestsExtended with merged := s.pullRequestsExtended.merged + 1 } }
    else s
  else if activity.type = "PullRequestReviewEvent" then
    { s with pullRequestsExtended :=
               { s.pullRequestsExtended with reviewed := s.pullRequestsExtended.reviewed + 1 } }
  else if activity.type = "IssuesEvent" then
    { s with issues := bumpIssueCounts s.issues (jsStr activity.payload.action) }
  else if activity.type = "IssueCommentEvent" then
    { s with issues := { s.issues with commented := s.issues.commented + 1 } }
  else if activity.type = "PushEvent" then
    let c := (activity.payload.commits.map (·.length)).getD 0
    let commitCount := if c ≠ 0 then c else activity.payload.size.getD 0
    { s with commits := s.commits + commitCount }
  else s

/-- The streak loop of `statsCalculator.ts` (`for (let i = 0; i <
sortedDates.length; i++) ...`): returns `(currentStreak, longestStreak)`.
`sortedDates.length` is the number of distinct day keys. -/
def scStreakLoop (now : Int) (daily : List (Int × Nat)) : Nat × Nat :=
  let r := (List.range daily.length).foldl
    (fun (acc : Nat × Nat × Nat) i =>
      let cur := acc.1
      let longest := acc.2.1
      let temp := acc.2.2
      if assocCount daily (dayKey (subDays now i)) ≠ 0 then
        let cur := if i = 0 ∨ i = 1 then cur + 1 else cur
        let temp := temp + 1
        (cur, max longest temp, temp)
      else
        (cur, longest, if 1 < i then 0 else temp))
    (0, 0, 0)
  (r.1, r.2.1)

/-- `calculateEnhancedStats` from `web/src/utils/statsCalculator.ts`
(the version imported by `useGitHubData`), projected as described at
`EnhancedStatsProj`; `now` is the impure `new Date()`. -/
def calculateEnhancedStatsSC (now : Int) (activities : List WebActivity) :
    EnhancedStatsProj :=
  let init : EnhancedStatsProj :=
    { totalActivities := activities.length,
      pullRequests := ⟨0, 0, 0⟩,
      pullRequestsExtended := ⟨0, 0, 0, 0, 0⟩,
      issues := ⟨0, 0, 0⟩,
      commits := 0,
      dailyActivities := [],
      streakDays := 0, longestStreak := 0 }
  let s := activities.foldl scStep init
  let streaks := scStreakLoop now s.dailyActivities
  { s with streakDays := streaks.1, longestStreak := streaks.2 }

/-- Projection of the `EnhancedStats` computed by the inline
`calculateEnhancedStats` of `web/src/App.current.tsx`. -/
structure CurrentStatsProj where
  totalActivities : Nat
  prOpened : Nat
  prClosed : Nat
  prMerged : Nat
  prReviewed : Nat
  issues : IssueCounts
  commitsTotal : Nat
  dailyActivities : List (Int × Nat)
  streakDays : Nat
  deriving DecidableEq, Repr

/-- One iteration of the `acts.forEach` loop of the `App.current.tsx`
`calculateEnhancedStats`, restricted to the projected fields. -/
def acStep (s : CurrentStatsProj) (activity : WebActivity) : CurrentStatsProj :=
  let s := { s with dailyActivities :=
                      bumpAssoc s.dailyActivities (dayKey activity.created_at) }
  if activity.type = "PullRequestEvent" then
    let s := if activity.payload.action = some "opened"
             then { s with prOpened := s.prOpened + 1 } else s
    if activity.payload.action = some "closed" then
      if payloadMerged activity then { s with prMerged := s.prMerged + 1 }
      else { s with prClosed := s.prClosed + 1 }
    else s
  else if activity.type = "PullRequestReviewEvent" then
    { s with prReviewed := s.prReviewed + 1 }
  else if activity.type = "IssuesEvent" then
    let s := if activity.payload.action = some "opened"
             then { s with issues := { s.issues with opened := s.issues.opened + 1 } } else s
    if activity.payload.action = some "closed"
    then { s with issues := { s.issues with closed := s.issues.closed + 1 } } else s
  else if activity.type = "IssueCommentEvent" then
    { s with issues := { s.issues with commented := s.issues.commented + 1 } }
  else if activity.type = "PushEvent" then
    { s with commitsTotal := s.commitsTotal + (activity.payload.commits.map (·.length)).getD 0 }
  else s

/-- The streak loop of `App.current.tsx` (`break`s at the first missing
day after index 0): structural recursion on the remaining iteration count
of `for (let i = 0; i < sortedDates.length; i++)`. -/
def acStreakGo (now : Int) (daily : List (Int × Nat)) :
    Nat → Nat → Nat → Nat
  | 0, _, cur => cur
  | rem + 1, i, cur =>
      if assocCount daily (dayKey (subDays now i)) ≠ 0 then
        acStreakGo now daily rem (i + 1) (cur + 1)
      else if 0 < i then cur
      else acStreakGo now daily rem (i + 1) cur

/-- `calculateEnhancedStats` from `web/src/App.current.tsx`, projected as
described at `CurrentStatsProj`. -/
def calculateEnhancedStatsCurrent (now : Int) (acts : List WebActivity) :
    CurrentStatsProj :=
  let init : CurrentStatsProj :=
    { totalActivities := acts.length,
      prOpened := 0, prClosed := 0, prMerged := 0, prReviewed := 0,
      issues := ⟨0, 0, 0⟩, commitsTotal := 0,
      dailyActivities := [], streakDays := 0 }
  let s := acts.foldl acStep init
  { s with streakDays := acStreakGo now s.dailyActivities s.dailyActivities.length 0 0 }

/-! ## Merge / dedup pipeline
(`web/api/github-activities.ts` handler, `App.tsx` fetchActivities,
`useGitHubData`) -/

/-- One step of `new Map(allEvents.map(e => [e.id, e]))`: `Map.set`
replaces the value of an existing key in place and appends a new key. -/
def insertById (acc : List WebActivity) (e : WebActivity) : List WebActivity :=
  if acc.any (fun x => x.id = e.id) then
    acc.map (fun x => if x.id = e.id then e else x)
  else acc ++ [e]

/-- `Array.from(new Map(allEvents.map(e => [e.id, e])).values())`. -/
def dedupById (l : List WebActivity) : List WebActivity :=
  l.foldl insertById []

/-- `.sort((a, b) => new Date(b.created_at).getTime() - new
Date(a.created_at).getTime())`: sorts into non-increasing `created_at`
order. -/
def sortByTimeDesc (l : List WebActivity) : List WebActivity :=
  l.insertionSort (fun a b => b.created_at ≤ a.created_at)

/-- The `uniqueEvents` value computed by all three merge sites: the
concatenated sources, deduplicated by `id`, sorted by timestamp
descending. -/
def mergeSources (sources : List (List WebActivity)) : List WebActivity :=
  sortByTimeDesc (dedupById sources.flatten)

/-! ## Relevance filter for received events -/

/-- Body of `activity.payload.comment?.body || ''`. -/
def commentBody (event : WebActivity) : String :=
  ((event.payload.comment.bind (·.body)).getD "")

/-- The received-events filter predicate of `fetchActivities` in
`web/src/App.tsx`. -/
def keepReceivedEventApp (currentUsername : String) (event : WebActivity) : Bool :=
  if event.actorLogin = currentUsername then true
  else if jsStartsWith event.repoName (currentUsername ++ "/") then true
  else if event.type = "IssueCommentEvent" ∨ event.type = "PullRequestReviewCommentEvent" then
    jsIncludes (commentBody event) ("@" ++ currentUsername)
  else if event.type = "PullRequestEvent" ∧ event.payload.pull_request.isSome then
    ((event.payload.pull_request.map (·.user_login)).getD "") = currentUsername
  else if event.type = "IssuesEvent" ∧ event.payload.issue.isSome then
    ((event.payload.issue.map (·.user_login)).getD "") = currentUsername
  else if event.type = "ForkEvent" ∨ event.type = "WatchEvent" then false
  else false

/-- The received-events filter predicate of `useGitHubData`
(`src/unnamed/part_002`). The JS short-circuit chains over possibly
`undefined` arrays yield a falsy value when the array is absent, which the
surrounding `filter` treats as `false`. -/
def keepReceivedEventHook (currentUsername : String) (event : WebActivity) : Bool :=
  if event.actorLogin = currentUsername then true
  else if jsStartsWith event.repoName (currentUsername ++ "/") then true
  else if event.type = "IssueCommentEvent" ∨ event.type = "PullRequestReviewCommentEvent" then
    jsIncludes (commentBody event) ("@" ++ currentUsername)
  else if h : event.type = "PullRequestEvent" ∧ event.payload.pull_request.isSome then
    let pr := event.payload.pull_request.get h.2
    pr.user_login = currentUsername
      || (pr.assignees.getD []).any (fun a => a = currentUsername)
      || (pr.requested_reviewers.getD []).any (fun r => r = currentUsername)
  else if h : event.type = "IssuesEvent" ∧ event.payload.issue.isSome then
    let issue := event.payload.issue.get h.2
    issue.user_login = currentUsername
      || (issue.assignees.getD []).any (fun a => a = currentUsername)
  else if event.type = "WatchEvent" ∨ event.type = "ForkEvent" then
    jsStartsWith event.repoName (currentUsername ++ "/")
  else false

/-! ## Cache layer (`src/unnamed/part_001`)

The on-disk store is a finite map from cache path to entry; `Date.now()`
is an explicit argument. A read of the underlying store can also surface
an I/O error or unparseable JSON, which the `catch` blocks absorb. -/

/-- The JSON object written by `Cache.set`. -/
structure CacheEntry (V : Type) where
  value : V
  created : Int
  expiry : Option Int
  deriving DecidableEq, Repr

/-- Outcome of `fs.readFile` + `JSON.parse` for a cache path. -/
inductive CacheRead (V : Type) where
  | missing
  | ioError
  | corrupt
  | found (e : CacheEntry V)
  deriving DecidableEq, Repr

/-- The cache directory contents, keyed by cache path. -/
def CacheStore (V : Type) : Type := List (String × CacheEntry V)

/-- `fs.unlink` of a cache path (`Cache.delete`). -/
def deleteStore {V : Type} : CacheStore V → String → CacheStore V
  | [], _ => []
  | (k', e) :: rest, k =>
      if k' = k then deleteStore rest k else (k', e) :: deleteStore rest k

/-- `fs.writeFile` of a cache path: overwrite-or-create map update. -/
def writeStore {V : Type} (store : CacheStore V) (k : String) (e : CacheEntry V) :
    CacheStore V :=
  (k, e) :: deleteStore store k

/-- Read a cache path from a healthy store. -/
def readStore {V : Type} (store : CacheStore V) (k : String) : CacheRead V :=
  match findAssoc store k with
  | some e => CacheRead.found e
  | none => CacheRead.missing

/-- Core of `Cache.get` after the read: the returned value and whether the
read path evicted a stale entry. The expired branch is taken only when
`cached.expiry` is truthy (non-`null` and non-zero) and strictly in the
past. A missing file, an I/O error and unparseable JSON all land in the
`catch` and return `null`. -/
def cacheGetAux {V : Type} (r : CacheRead V) (now : Int) : Option V × Bool :=
  match r with
  | CacheRead.found e =>
      match e.expiry with
      | some x => if x ≠ 0 ∧ x < now then (none, true) else (some e.value, false)
      | none => (some e.value, false)
  | _ => (none, false)

/-- `Cache.get` over a healthy store: returns the value (or `null`) and
the store after any stale-entry eviction. -/
def cacheGet {V : Type} (store : CacheStore V) (k : String) (now : Int) :
    Option V × CacheStore V :=
  match cacheGetAux (readStore store k) now with
  | (v, true) => (v, deleteStore store k)
  | (v, false) => (v, store)

/-- `Cache.set`: stores `{value, created: now, expiry: ttl ? now +
ttl*1000 : null}`; a `ttlSeconds` of `0` is falsy in JS and stores no
expiry. `writeOk = false` models a failing `fs.writeFile`, absorbed by the
`catch`: the function still returns normally and the store is unchanged. -/
def cacheSet {V : Type} (store : CacheStore V) (k : String) (v : V) (now : Int)
    (ttlSeconds : Option Int) (writeOk : Bool) : CacheStore V :=
  let entry : CacheEntry V :=
    { value := v, created := now,
      expiry := match ttlSeconds with
                | some t => if t ≠ 0 then some (now + t * 1000) else none
                | none => none }
  if writeOk then writeStore store k entry else store

/-- Boolean form of "within-window PullRequestEvent with action `opened`". -/
def isPROpened (a : ProcessedActivity) : Bool :=
  a.type == "PullRequestEvent" && a.action == "opened"

/-- PullRequestEvent with action `closed` and a falsy merged flag. -/
def isPRClosedUnmerged (a : ProcessedActivity) : Bool :=
  a.type == "PullRequestEvent" && a.action == "closed" && !(detailsMerged a)

/-- PullRequestEvent with action `closed` and a truthy merged flag. -/
def isPRClosedMerged (a : ProcessedActivity) : Bool :=
  a.type == "PullRequestEvent" && a.action == "closed" && detailsMerged a

/-- PullRequestEvent whose action is `opened` or `closed`. -/
def isPRFunnelSource (a : ProcessedActivity) : Bool :=
  a.type == "PullRequestEvent" && (a.action == "opened" || a.action == "closed")

/-! ## Concrete sample data used by witnesses and counterexamples -/

/-- Midnight UTC of 2024-01-01 (epoch day 19723). -/
def jan1val : Int := 19723 * dayMs

/-- Midnight UTC of 2024-01-03. -/
def jan3val : Int := 19725 * dayMs

/-- Midnight UTC of 2024-01-04. -/
def jan4val : Int := 19726 * dayMs

/-- Midnight UTC of 2024-01-05. -/
def jan5val : Int := 19727 * dayMs

/-- Noon UTC of 2024-01-05, used as `now`. -/
def jan5noon : Int := jan5val + 43200000

/-- A minimal push-type web activity at a given time. -/
def mkPush (i : String) (t : Int) : WebActivity :=
  { id := i, type := "PushEvent", created_at := t, repoName := "alice/r",
    payload := {}, actorLogin := "alice" }

/-- Activities on 2024-01-05, 2024-01-04 and 2024-01-03. -/
def streakActs3 : List WebActivity :=
  [mkPush "a" jan5val, mkPush "b" jan4val, mkPush "c" jan3val]

/-- Activities on 2024-01-05 and 2024-01-01 only. -/
def streakActs2 : List WebActivity :=
  [mkPush "a" jan5val, mkPush "b" jan1val]

/-- A `PullRequestEvent` web activity with action `closed` and a merged
pull request. -/
def closedMergedWebPR : WebActivity :=
  { id := "p1", type := "PullRequestEvent", created_at := jan5val,
    repoName := "alice/r",
    payload := { action := some "closed",
                 pull_request := some { number := 1, title := "t", state := "closed",
                                        merged := some true, html_url := "u" } },
    actorLogin := "alice" }

/-- PullRequestEvent (web shape) whose action is `opened` or `closed`. -/
def isWebPRFunnelSource (a : WebActivity) : Bool :=
  a.type == "PullRequestEvent"
    && (a.payload.action == some "opened" || a.payload.action == some "closed")

/-- A raw event of an unrecognized type. -/
def gollumEvent : GitHubActivity :=
  { id := "g1", type := "GollumEvent", actorLogin := "alice",
    repoName := "octo/demo", payload := {}, created_at := jan5val }

/-- A `PullRequestEvent` raw event whose payload has no `pull_request`. -/
def prMissingPayload : GitHubActivity :=
  { id := "g2", type := "PullRequestEvent", actorLogin := "alice",
    repoName := "octo/demo", payload := {}, created_at := jan5val }

/-- A processed `PullRequestEvent` with action `closed`, merged flag set. -/
def closedMergedPA : ProcessedActivity :=
  { id := "c1", type := "PullRequestEvent", action := "closed", repo := "alice/r",
    description := "closed PR #1: t", timestamp := jan5val,
    details := some { pr_number := some 1, merged := some true } }

/-- A processed `PullRequestEvent` with the synthesized action `merged`. -/
def mergedActionPA : ProcessedActivity :=
  { id := "m1", type := "PullRequestEvent", action := "merged", repo := "alice/r",
    description := "merged PR #2: t", timestamp := jan5val,
    details := some { pr_number := some 2, merged := some true } }

/-- A processed activity one day in the future of `jan5noon`. -/
def futurePA : ProcessedActivity :=
  { id := "f1", type := "WatchEvent", action := "starred", repo := "alice/r",
    description := "Starred repository", timestamp := jan5noon + dayMs }

/-- A processed activity at `startOfDay(now) - 7 days`: earlier than
`now - 7 days` but still kept by the filter. -/
def earlyMorningPA : ProcessedActivity :=
  { id := "e1", type := "WatchEvent", action := "starred", repo := "alice/r",
    description := "Starred repository", timestamp := startOfDay jan5noon - 7 * dayMs }

/-- A processed activity strictly below the filter cutoff. -/
def belowCutoffPA : ProcessedActivity :=
  { id := "b1", type := "WatchEvent", action := "starred", repo := "alice/r",
    description := "Starred repository", timestamp := startOfDay jan5noon - 7 * dayMs - 1 }

/-- An all-zero summary record. -/
def sampleSummary : ActivitySummary :=
  { totalActivities := 0, byType := [], byRepo := [], byDay := [],
    recentActivities := [],
    prOpened := 0, prClosed := 0, prMerged := 0, prReviewed := 0,
    issOpened := 0, issClosed := 0, issCommented := 0,
    commitsTotal := 0, commitRepos := [] }

/-- The event types with a dedicated `switch` case in `processEvent`. -/
def handledTypes : List String :=
  ["PushEvent", "PullRequestEvent", "IssuesEvent", "IssueCommentEvent",
   "CreateEvent", "DeleteEvent", "ForkEvent", "WatchEvent", "ReleaseEvent",
   "PullRequestReviewEvent", "PullRequestReviewCommentEvent"]

/-- The payload sub-objects that the `processEvent` case for the event's
type dereferences without optional chaining are present. -/
def payloadComplete (e : GitHubActivity) : Bool :=
  if e.type = "PushEvent" then true
  else if e.type = "PullRequestEvent" then e.payload.pull_request.isSome
  else if e.type = "IssuesEvent" then e.payload.issue.isSome
  else if e.type = "IssueCommentEvent" then
    e.payload.issue.isSome && e.payload.comment.isSome
  else if e.type = "CreateEvent" then true
  else if e.type = "DeleteEvent" then true
  else if e.type = "ForkEvent" then e.payload.forkee.isSome
  else if e.type = "WatchEvent" then true
  else if e.type = "ReleaseEvent" then e.payload.release.isSome
  else if e.type = "PullRequestReviewEvent" then
    e.payload.pull_request.isSome && e.payload.review.isSome
  else if e.type = "PullRequestReviewCommentEvent" then
    e.payload.pull_request.isSome && e.payload.comment.isSome
  else true

/-- A `WatchEvent` by actor `bob` on a repository owned by `alice`. -/
def watchBobOnAliceRepo : WebActivity :=
  { id := "w1", type := "WatchEvent", created_at := jan5val,
    repoName := "alice/proj", payload := {}, actorLogin := "bob" }

/-- The same `WatchEvent` by `bob`, on a repository owned by `carol`. -/
def watchBobOnCarolRepo : WebActivity :=
  { id := "w2", type := "WatchEvent", created_at := jan5val,
    repoName := "carol/other", payload := {}, actorLogin := "bob" }

/-- Source A of the dedup example: contains id "42" (and another id). -/
def sourceAlist : List WebActivity :=
  [mkPush "42" 100, mkPush "7" 300]

/-- Source B of the dedup example: contains id "42" with a different
timestamp and repository. -/
def sourceBlist : List WebActivity :=
  [{ mkPush "42" 200 with repoName := "bee/r" }]

/-! ## Supporting lemmas -/

/-- Bumping key `k'` changes the count at `k` by `1` exactly when `k' = k`. -/
theorem assocCount_bumpAssoc {α : Type} [DecidableEq α] (m : List (α × Nat)) (k' k : α) :
    assocCount (bumpAssoc m k') k = assocCount m k + (if k' = k then 1 else 0) := by
  induction m with
  | nil =>
      by_cases h : k' = k <;> simp [bumpAssoc, assocCount, findAssoc, h]
  | cons p rest ih =>
      obtain ⟨k₀, n₀⟩ := p
      by_cases h0 : k₀ = k'
      · subst h0
        by_cases h1 : k₀ = k <;> simp [bumpAssoc, assocCount, findAssoc, h1]
      · by_cases h1 : k₀ = k
        · subst h1
          have hne : ¬(k' = k₀) := fun h => h0 h.symm
          simp [bumpAssoc, assocCount, findAssoc, h0, hne]
        · simp only [bumpAssoc, assocCount, findAssoc, if_neg h0, if_neg h1]
          simpa [assocCount] using ih

theorem summarizeStep_totalActivities (s : ActivitySummary) (a : ProcessedActivity) :
    (summarizeStep s a).totalActivities = s.totalActivities := by
  simp only [summarizeStep]
  split_ifs <;> rfl

theorem summarizeStep_byType (s : ActivitySummary) (a : ProcessedActivity) :
    (summarizeStep s a).byType = bumpAssoc s.byType a.type := by
  simp only [summarizeStep]
  split_ifs <;> rfl

theorem summarizeStep_byRepo (s : ActivitySummary) (a : ProcessedActivity) :
    (summarizeStep s a).byRepo = bumpAssoc s.byRepo a.repo := by
  simp only [summarizeStep]
  split_ifs <;> rfl

theorem summarizeStep_prOpened (s : ActivitySummary) (a : ProcessedActivity) :
    (summarizeStep s a).prOpened = s.prOpened + (if isPROpened a then 1 else 0) := by
  simp only [summarizeStep, isPROpened]
  split_ifs <;> simp_all

theorem summarizeStep_prClosed (s : ActivitySummary) (a : ProcessedActivity) :
    (summarizeStep s a).prClosed = s.prClosed + (if isPRClosedUnmerged a then 1 else 0) := by
  simp only [summarizeStep, isPRClosedUnmerged]
  split_ifs <;> simp_all

theorem summarizeStep_prMerged (s : ActivitySummary) (a : ProcessedActivity) :
    (summarizeStep s a).prMerged = s.prMerged + (if isPRClosedMerged a then 1 else 0) := by
  simp only [summarizeStep, isPRClosedMerged]
  split_ifs <;> simp_all

theorem summarizeStep_prReviewed (s : ActivitySummary) (a : ProcessedActivity) :
    (summarizeStep s a).prReviewed
      = s.prReviewed + (if a.type == "PullRequestReviewEvent" then 1 else 0) := by
  simp only [summarizeStep]
  split_ifs <;> simp_all

/-- Any per-activity counter of the summarize loop accumulates over the
fold. -/
theorem foldl_summarizeStep_count (f : ActivitySummary → Nat) (p : ProcessedActivity → Bool)
    (hstep : ∀ s a, f (summarizeStep s a) = f s + (if p a then 1 else 0)) :
    ∀ (l : List ProcessedActivity) (s : ActivitySummary),
      f (l.foldl summarizeStep s) = f s + l.countP p := by
  intro l
  induction l with
  | nil => intro s; simp
  | cons a t ih =>
      intro s
      simp only [List.foldl_cons, List.countP_cons, ih, hstep]
      by_cases h : p a = true
      · simp only [h, if_pos]
        omega
      · simp only [h, if_neg, Bool.false_eq_true, if_false]
        omega

theorem foldl_summarizeStep_totalActivities (l : List ProcessedActivity)
    (s : ActivitySummary) :
    (l.foldl summarizeStep s).totalActivities = s.totalActivities := by
  induction l generalizing s with
  | nil => rfl
  | cons a t ih => simp [List.foldl_cons, ih, summarizeStep_totalActivities]

/-- The three closed/opened indicators partition the funnel-source
indicator. -/
theorem countP_funnel_split (l : List ProcessedActivity) :
    l.countP isPROpened + l.countP isPRClosedUnmerged + l.countP isPRClosedMerged
      = l.countP isPRFunnelSource := by
  induction l with
  | nil => rfl
  | cons a t ih =>
      simp only [List.countP_cons]
      have key : (if isPROpened a then 1 else 0) + (if isPRClosedUnmerged a then 1 else 0)
          + (if isPRClosedMerged a then 1 else 0) = (if isPRFunnelSource a then 1 else 0) := by
        simp only [isPROpened, isPRClosedUnmerged, isPRClosedMerged, isPRFunnelSource]
        by_cases hty : a.type = "PullRequestEvent"
        · by_cases hop : a.action = "opened"
          · have hcl : ¬(a.action = "closed") := by
              intro hcl; rw [hop] at hcl; exact absurd hcl (by decide)
            simp [hty, hop, hcl]
          · by_cases hcl : a.action = "closed"
            · by_cases hm : detailsMerged a = true <;> simp [hty, hop, hcl, hm]
            · simp [hty, hop, hcl]
        · simp [hty]
      omega

/-- `summarizeActivities` unfolded to its filter-then-fold form. -/
theorem summarizeActivities_eq (now : Int) (l : List ProcessedActivity) (daysBack : Nat) :
    summarizeActivities now l daysBack
      = (l.filter (fun a => summaryCutoff now daysBack ≤ a.timestamp)).foldl summarizeStep
          { totalActivities := (l.filter (fun a => summaryCutoff now daysBack ≤ a.timestamp)).length,
            byType := [], byRepo := [], byDay := [],
            recentActivities := (l.filter (fun a => summaryCutoff now daysBack ≤ a.timestamp)).take 20,
            prOpened := 0, prClosed := 0, prMerged := 0, prReviewed := 0,
            issOpened := 0, issClosed := 0, issCommented := 0,
            commitsTotal := 0, commitRepos := [] } := rfl

theorem summarizeStep_byTypeCount (k : String) (s : ActivitySummary) (a : ProcessedActivity) :
    assocCount (summarizeStep s a).byType k
      = assocCount s.byType k + (if a.type == k then 1 else 0) := by
  rw [summarizeStep_byType, assocCount_bumpAssoc]
  simp [beq_iff_eq]

theorem summarizeStep_byRepoCount (k : String) (s : ActivitySummary) (a : ProcessedActivity) :
    assocCount (summarizeStep s a).byRepo k
      = assocCount s.byRepo k + (if a.repo == k then 1 else 0) := by
  rw [summarizeStep_byRepo, assocCount_bumpAssoc]
  simp [beq_iff_eq]

theorem foldl_prOpened (l : List ProcessedActivity) (s : ActivitySummary) :
    (l.foldl summarizeStep s).prOpened = s.prOpened + l.countP isPROpened :=
  foldl_summarizeStep_count (fun s => s.prOpened) isPROpened summarizeStep_prOpened l s

theorem foldl_prClosed (l : List ProcessedActivity) (s : ActivitySummary) :
    (l.foldl summarizeStep s).prClosed = s.prClosed + l.countP isPRClosedUnmerged :=
  foldl_summarizeStep_count (fun s => s.prClosed) isPRClosedUnmerged summarizeStep_prClosed l s

theorem foldl_prMerged (l : List ProcessedActivity) (s : ActivitySummary) :
    (l.foldl summarizeStep s).prMerged = s.prMerged + l.countP isPRClosedMerged :=
  foldl_summarizeStep_count (fun s => s.prMerged) isPRClosedMerged summarizeStep_prMerged l s

theorem foldl_prReviewed (l : List ProcessedActivity) (s : ActivitySummary) :
    (l.foldl summarizeStep s).prReviewed
      = s.prReviewed + l.countP (fun a => a.type == "PullRequestReviewEvent") :=
  foldl_summarizeStep_count (fun s => s.prReviewed) _ summarizeStep_prReviewed l s

theorem foldl_byTypeCount (k : String) (l : List ProcessedActivity) (s : ActivitySummary) :
    assocCount (l.foldl summarizeStep s).byType k
      = assocCount s.byType k + l.countP (fun a => a.type == k) :=
  foldl_summarizeStep_count (fun s => assocCount s.byType k) _
    (summarizeStep_byTypeCount k) l s

theorem foldl_byRepoCount (k : String) (l : List ProcessedActivity) (s : ActivitySummary) :
    assocCount (l.foldl summarizeStep s).byRepo k
      = assocCount s.byRepo k + l.countP (fun a => a.repo == k) :=
  foldl_summarizeStep_count (fun s => assocCount s.byRepo k) _
    (summarizeStep_byRepoCount k) l s

/-! ## Claim theorems -/

/-- C1 (amended): in `summarizeActivities`, a windowed PullRequestEvent
with action `closed` adds exactly 1 to `closed + merged` (to `merged`
exactly when `details.merged` is truthy), and
`opened + closed + merged` equals the number of windowed
PullRequestEvents with action in (opened, closed), hence never
exceeds the number of such activities in the whole input. (The claim's
extension to `calculateEnhancedStats` is refuted separately.) -/
theorem summarize_pr_funnel_conservation :
    ∀ (now : Int) (daysBack : Nat) (l : List ProcessedActivity) (s : ActivitySummary)
      (a : ProcessedActivity),
      (a.type = "PullRequestEvent" → a.action = "closed" →
         (summarizeStep s a).prClosed + (summarizeStep s a).prMerged
             = s.prClosed + s.prMerged + 1
         ∧ ((summarizeStep s a).prMerged = s.prMerged + 1 ↔ detailsMerged a = true))
      ∧ (summarizeActivities now l daysBack).prOpened
          + (summarizeActivities now l daysBack).prClosed
          + (summarizeActivities now l daysBack).prMerged
          = (l.filter (fun x => summaryCutoff now daysBack ≤ x.timestamp)).countP isPRFunnelSource
      ∧ (summarizeActivities now l daysBack).prOpened
          + (summarizeActivities now l daysBack).prClosed
          + (summarizeActivities now l daysBack).prMerged
          ≤ l.countP isPRFunnelSource := by
  intro now daysBack l s a
  refine ⟨?_, ?_, ?_⟩
  · intro hty hcl
    rw [summarizeStep_prClosed, summarizeStep_prMerged]
    constructor
    · simp only [isPRClosedUnmerged, isPRClosedMerged, hty, hcl]
      by_cases hm : detailsMerged a = true <;> simp [hm] <;> omega
    · simp only [isPRClosedMerged, hty, hcl]
      by_cases hm : detailsMerged a = true <;> simp [hm]
  · rw [summarizeActivities_eq]
    rw [foldl_summarizeStep_count (·.prOpened) isPROpened summarizeStep_prOpened,
        foldl_summarizeStep_count (·.prClosed) isPRClosedUnmerged summarizeStep_prClosed,
        foldl_summarizeStep_count (·.prMerged) isPRClosedMerged summarizeStep_prMerged]
    simpa using countP_funnel_split _
  · have h2 : (summarizeActivities now l daysBack).prOpened
        + (summarizeActivities now l daysBack).prClosed
        + (summarizeActivities now l daysBack).prMerged
        = (l.filter (fun x => summaryCutoff now daysBack ≤ x.timestamp)).countP isPRFunnelSource := by
      rw [summarizeActivities_eq]
      rw [foldl_summarizeStep_count (·.prOpened) isPROpened summarizeStep_prOpened,
          foldl_summarizeStep_count (·.prClosed) isPRClosedUnmerged summarizeStep_prClosed,
          foldl_summarizeStep_count (·.prMerged) isPRClosedMerged summarizeStep_prMerged]
      simpa using countP_funnel_split _
    rw [h2]
    exact (List.filter_sublist l).countP_le _

/-- C1 witness: the per-step exactly-one property at a concrete closed,
merged pull-request activity. -/
theorem summarize_pr_funnel_conservation_witness :
    (summarizeStep sampleSummary closedMergedPA).prClosed
        + (summarizeStep sampleSummary closedMergedPA).prMerged
        = sampleSummary.prClosed + sampleSummary.prMerged + 1
    ∧ ((summarizeStep sampleSummary closedMergedPA).prMerged
        = sampleSummary.prMerged + 1 ↔ detailsMerged closedMergedPA = true) :=
  (summarize_pr_funnel_conservation 0 7 [] sampleSummary closedMergedPA).1 rfl rfl

/-- C1 counterexample: `calculateEnhancedStats` (statsCalculator version)
counts a single closed-and-merged PullRequestEvent in both `closed` and
`merged`, so `opened + closed + merged = 2` exceeds the single
PullRequestEvent with action in (opened, closed). -/
theorem enhanced_pr_funnel_overcount :
    (calculateEnhancedStatsSC jan5noon [closedMergedWebPR]).pullRequests.opened
        + (calculateEnhancedStatsSC jan5noon [closedMergedWebPR]).pullRequests.closed
        + (calculateEnhancedStatsSC jan5noon [closedMergedWebPR]).pullRequests.merged = 2
    ∧ [closedMergedWebPR].countP isWebPRFunnelSource = 1
    ∧ ¬((calculateEnhancedStatsSC jan5noon [closedMergedWebPR]).pullRequests.opened
        + (calculateEnhancedStatsSC jan5noon [closedMergedWebPR]).pullRequests.closed
        + (calculateEnhancedStatsSC jan5noon [closedMergedWebPR]).pullRequests.merged
        ≤ [closedMergedWebPR].countP isWebPRFunnelSource) := by
  refine ⟨by decide, by decide, by decide⟩

/-- C2 counterexample: with activities on 2024-01-05, 2024-01-04 and
2024-01-03 and `now` at noon on 2024-01-05, the statsCalculator
`calculateEnhancedStats` yields `streakDays = 2`, not the claimed 3 (its
current-streak counter only increments at loop indexes 0 and 1). -/
theorem statscalc_streak_counterexample :
    (calculateEnhancedStatsSC jan5noon streakActs3).streakDays = 2
    ∧ (calculateEnhancedStatsSC jan5noon streakActs3).streakDays ≠ 3 := by
  exact ⟨by decide, by decide⟩

/-- C2 (amended): the `App.current.tsx` implementation satisfies both
streak examples (3 and 1); the statsCalculator implementation satisfies
the second example (1) but yields 2 on the three-day example. -/
theorem streak_examples_amended :
    (calculateEnhancedStatsCurrent jan5noon streakActs3).streakDays = 3
    ∧ (calculateEnhancedStatsCurrent jan5noon streakActs2).streakDays = 1
    ∧ (calculateEnhancedStatsSC jan5noon streakActs2).streakDays = 1
    ∧ (calculateEnhancedStatsSC jan5noon streakActs3).streakDays = 2 := by
  exact ⟨by decide, by decide, by decide, by decide⟩

/-- C3 (amended): `processEvent` returns exactly one activity for every
event of unrecognized type, with action the type string with its first
occurrence of `"Event"` removed and lowercased, and description the
UNCHANGED type string followed by `" on <repo>"`; for recognized types it
returns exactly one activity whenever the payload sub-objects its case
dereferences are present (and throws otherwise, refuted separately). -/
theorem processEvent_amended :
    ∀ e : GitHubActivity,
      (e.type ∉ handledTypes →
        processEvent e
          = some { id := e.id, type := e.type, repo := e.repoName,
                   timestamp := e.created_at,
                   action := (jsReplaceFirst e.type "Event").toLower,
                   description := e.type ++ " on " ++ e.repoName })
      ∧ (payloadComplete e = true → (processEvent e).isSome = true) := by
  intro e
  constructor
  · intro h
    simp only [handledTypes, List.mem_cons, List.not_mem_nil, or_false] at h
    push_neg at h
    obtain ⟨h1, h2, h3, h4, h5, h6, h7, h8, h9, h10, h11⟩ := h
    unfold processEvent
    rw [if_neg h1, if_neg h2, if_neg h3, if_neg h4, if_neg h5, if_neg h6, if_neg h7,
        if_neg h8, if_neg h9, if_neg h10, if_neg h11]
  · intro hc
    unfold payloadComplete at hc
    unfold processEvent
    by_cases k1 : e.type = "PushEvent"
    · rw [if_pos k1]
      rfl
    rw [if_neg k1] at hc ⊢
    by_cases k2 : e.type = "PullRequestEvent"
    · rw [if_pos k2] at hc ⊢
      obtain ⟨pr, hpr⟩ := Option.isSome_iff_exists.mp hc
      rw [hpr]
      rfl
    rw [if_neg k2] at hc ⊢
    by_cases k3 : e.type = "IssuesEvent"
    · rw [if_pos k3] at hc ⊢
      obtain ⟨issue, hi⟩ := Option.isSome_iff_exists.mp hc
      rw [hi]
      rfl
    rw [if_neg k3] at hc ⊢
    by_cases k4 : e.type = "IssueCommentEvent"
    · rw [if_pos k4] at hc ⊢
      rw [Bool.and_eq_true] at hc
      obtain ⟨issue, hi⟩ := Option.isSome_iff_exists.mp hc.1
      obtain ⟨comment, hcm⟩ := Option.isSome_iff_exists.mp hc.2
      rw [hi, hcm]
      rfl
    rw [if_neg k4] at hc ⊢
    by_cases k5 : e.type = "CreateEvent"
    · rw [if_pos k5]
      rfl
    rw [if_neg k5] at hc ⊢
    by_cases k6 : e.type = "DeleteEvent"
    · rw [if_pos k6]
      rfl
    rw [if_neg k6] at hc ⊢
    by_cases k7 : e.type = "ForkEvent"
    · rw [if_pos k7] at hc ⊢
      obtain ⟨forkee, hf⟩ := Option.isSome_iff_exists.mp hc
      rw [hf]
      rfl
    rw [if_neg k7] at hc ⊢
    by_cases k8 : e.type = "WatchEvent"
    · rw [if_pos k8]
      rfl
    rw [if_neg k8] at hc ⊢
    by_cases k9 : e.type = "ReleaseEvent"
    · rw [if_pos k9] at hc ⊢
      obtain ⟨release, hr⟩ := Option.isSome_iff_exists.mp hc
      rw [hr]
      rfl
    rw [if_neg k9] at hc ⊢
    by_cases k10 : e.type = "PullRequestReviewEvent"
    · rw [if_pos k10] at hc ⊢
      rw [Bool.and_eq_true] at hc
      obtain ⟨pr, hpr⟩ := Option.isSome_iff_exists.mp hc.1
      obtain ⟨review, hrv⟩ := Option.isSome_iff_exists.mp hc.2
      rw [hpr, hrv]
      rfl
    rw [if_neg k10] at hc ⊢
    by_cases k11 : e.type = "PullRequestReviewCommentEvent"
    · rw [if_pos k11] at hc ⊢
      rw [Bool.and_eq_true] at hc
      obtain ⟨pr, hpr⟩ := Option.isSome_iff_exists.mp hc.1
      obtain ⟨comment, hcm⟩ := Option.isSome_iff_exists.mp hc.2
      rw [hpr, hcm]
      rfl
    rw [if_neg k11]
    rfl

/-- C3 witness: both parts of the amended contract at the concrete
`GollumEvent` input. -/
theorem processEvent_amended_witness :
    processEvent gollumEvent
        = some { id := gollumEvent.id, type := gollumEvent.type,
                 repo := gollumEvent.repoName,
                 timestamp := gollumEvent.created_at,
                 action := (jsReplaceFirst gollumEvent.type "Event").toLower,
                 description := gollumEvent.type ++ " on " ++ gollumEvent.repoName }
    ∧ (processEvent gollumEvent).isSome = true :=
  ⟨(processEvent_amended gollumEvent).1 (by decide),
   (processEvent_amended gollumEvent).2 (by decide)⟩

/-- C3 counterexample: the fallback description keeps the original type
string (it is not lowercased and suffix-stripped), and a recognized type
with a missing payload sub-object makes `processEvent` throw rather than
return an activity. -/
theorem processEvent_claim_counterexample :
    (processEvent gollumEvent).map ProcessedActivity.description
        = some "GollumEvent on octo/demo"
    ∧ ("GollumEvent on octo/demo" : String) ≠ "gollum on octo/demo"
    ∧ processEvent prMissingPayload = none := by
  exact ⟨by decide, by decide, by decide⟩

/-- C4 (amended): `summarizeActivities` keeps exactly the activities with
timestamp at or above `startOfDay(now) - windowDays` days:
`totalActivities` counts exactly those, and an activity strictly below
that cutoff contributes to no component of the summary. (The claimed
upper bound at `now` and the claimed lower bound at `now - windowDays`
are refuted separately.) -/
theorem summarize_window_cutoff :
    ∀ (now : Int) (daysBack : Nat) (a : ProcessedActivity) (l : List ProcessedActivity),
      (summarizeActivities now l daysBack).totalActivities
          = l.countP (fun x => summaryCutoff now daysBack ≤ x.timestamp)
      ∧ (a.timestamp < summaryCutoff now daysBack →
          summarizeActivities now (a :: l) daysBack = summarizeActivities now l daysBack) := by
  intro now daysBack a l
  constructor
  · rw [summarizeActivities_eq, foldl_summarizeStep_totalActivities]
    exact (List.countP_eq_length_filter _ _).symm
  · intro h
    have hcond : ¬(summaryCutoff now daysBack ≤ a.timestamp) := not_le.mpr h
    simp only [summarizeActivities, List.filter_cons]
    simp [hcond]

/-- C4 witness: a concrete below-cutoff activity leaves the summary
unchanged. -/
theorem summarize_window_cutoff_witness :
    summarizeActivities jan5noon [belowCutoffPA] 7 = summarizeActivities jan5noon [] 7 :=
  (summarize_window_cutoff jan5noon 7 belowCutoffPA []).2 (by decide)

/-- C4 counterexample: an activity one day in the future of `now` is
counted, and so is an activity strictly earlier than `now - 7 days` (one
that falls between midnight-based cutoff and `now - 7 days`); the claim
says both contribute to nothing. -/
theorem summarize_window_counterexample :
    jan5noon < futurePA.timestamp
    ∧ (summarizeActivities jan5noon [futurePA] 7).totalActivities = 1
    ∧ earlyMorningPA.timestamp < jan5noon - 7 * dayMs
    ∧ (summarizeActivities jan5noon [earlyMorningPA] 7).totalActivities = 1 := by
  exact ⟨by decide, by decide, by decide, by decide⟩

/-- C10: a windowed PullRequestEvent whose action is the synthesized
`merged` (as produced for pull requests with a `merged_at` timestamp by
the pseudo-event synthesis) leaves all four PR funnel counters of
`summarizeActivities` unchanged while still counting toward
`totalActivities`, `byType` and `byRepo`. -/
theorem summarize_merged_action_invisible :
    ∀ (now : Int) (daysBack : Nat) (a : ProcessedActivity) (l : List ProcessedActivity),
      a.type = "PullRequestEvent" → a.action = "merged" →
      summaryCutoff now daysBack ≤ a.timestamp →
      (summarizeActivities now (a :: l) daysBack).prOpened
          = (summarizeActivities now l daysBack).prOpened
      ∧ (summarizeActivities now (a :: l) daysBack).prClosed
          = (summarizeActivities now l daysBack).prClosed
      ∧ (summarizeActivities now (a :: l) daysBack).prMerged
          = (summarizeActivities now l daysBack).prMerged
      ∧ (summarizeActivities now (a :: l) daysBack).prReviewed
          = (summarizeActivities now l daysBack).prReviewed
      ∧ (summarizeActivities now (a :: l) daysBack).totalActivities
          = (summarizeActivities now l daysBack).totalActivities + 1
      ∧ assocCount (summarizeActivities now (a :: l) daysBack).byType "PullRequestEvent"
          = assocCount (summarizeActivities now l daysBack).byType "PullRequestEvent" + 1
      ∧ assocCount (summarizeActivities now (a :: l) daysBack).byRepo a.repo
          = assocCount (summarizeActivities now l daysBack).byRepo a.repo + 1 := by
  intro now daysBack a l hty hact hwin
  have hfil : (a :: l).filter (fun x => summaryCutoff now daysBack ≤ x.timestamp)
      = a :: l.filter (fun x => summaryCutoff now daysBack ≤ x.timestamp) := by
    rw [List.filter_cons]
    simp [hwin]
  have hopen : isPROpened a = false := by
    simp [isPROpened, hty, hact]
  have hcu : isPRClosedUnmerged a = false := by
    simp [isPRClosedUnmerged, hty, hact]
  have hcm : isPRClosedMerged a = false := by
    simp [isPRClosedMerged, hty, hact]
  have hrev : (a.type == "PullRequestReviewEvent") = false := by
    rw [hty]; decide
  have htyk : (a.type == "PullRequestEvent") = true := by
    rw [hty]; decide
  refine ⟨?_, ?_, ?_, ?_, ?_, ?_, ?_⟩
  · rw [summarizeActivities_eq now (a :: l) daysBack, summarizeActivities_eq now l daysBack,
        hfil, foldl_prOpened, foldl_prOpened, List.countP_cons, hopen]
    simp
  · rw [summarizeActivities_eq now (a :: l) daysBack, summarizeActivities_eq now l daysBack,
        hfil, foldl_prClosed, foldl_prClosed, List.countP_cons, hcu]
    simp
  · rw [summarizeActivities_eq now (a :: l) daysBack, summarizeActivities_eq now l daysBack,
        hfil, foldl_prMerged, foldl_prMerged, List.countP_cons, hcm]
    simp
  · rw [summarizeActivities_eq now (a :: l) daysBack, summarizeActivities_eq now l daysBack,
        hfil, foldl_prReviewed, foldl_prReviewed, List.countP_cons, hrev]
    simp
  · rw [summarizeActivities_eq now (a :: l) daysBack, summarizeActivities_eq now l daysBack,
        foldl_summarizeStep_totalActivities, foldl_summarizeStep_totalActivities, hfil]
    simp
  · rw [summarizeActivities_eq now (a :: l) daysBack, summarizeActivities_eq now l daysBack,
        hfil, foldl_byTypeCount, foldl_byTypeCount, List.countP_cons, htyk]
    simp
    try omega
  · rw [summarizeActivities_eq now (a :: l) daysBack, summarizeActivities_eq now l daysBack,
        hfil, foldl_byRepoCount, foldl_byRepoCount, List.countP_cons, beq_self_eq_true]
    simp
    try omega

/-- C10 witness: the statement at a concrete synthesized merged-PR
activity against the empty tail. -/
theorem summarize_merged_action_invisible_witness :
    (summarizeActivities jan5noon (mergedActionPA :: []) 7).prOpened
        = (summarizeActivities jan5noon [] 7).prOpened
    ∧ (summarizeActivities jan5noon (mergedActionPA :: []) 7).prClosed
        = (summarizeActivities jan5noon [] 7).prClosed
    ∧ (summarizeActivities jan5noon (mergedActionPA :: []) 7).prMerged
        = (summarizeActivities jan5noon [] 7).prMerged
    ∧ (summarizeActivities jan5noon (mergedActionPA :: []) 7).prReviewed
        = (summarizeActivities jan5noon [] 7).prReviewed
    ∧ (summarizeActivities jan5noon (mergedActionPA :: []) 7).totalActivities
        = (summarizeActivities jan5noon [] 7).totalActivities + 1
    ∧ assocCount (summarizeActivities jan5noon (mergedActionPA :: []) 7).byType "PullRequestEvent"
        = assocCount (summarizeActivities jan5noon [] 7).byType "PullRequestEvent" + 1
    ∧ assocCount (summarizeActivities jan5noon (mergedActionPA :: []) 7).byRepo mergedActionPA.repo
        = assocCount (summarizeActivities jan5noon [] 7).byRepo mergedActionPA.repo + 1 :=
  summarize_merged_action_invisible jan5noon 7 mergedActionPA [] rfl rfl (by decide)

/-- Deleting a cache path removes every entry for it. -/
theorem findAssoc_deleteStore_self {V : Type} (store : CacheStore V) (k : String) :
    findAssoc (deleteStore store k) k = none := by
  induction store with
  | nil => rfl
  | cons p rest ih =>
      obtain ⟨k', e⟩ := p
      by_cases h : k' = k
      · simpa [deleteStore, h] using ih
      · simpa [deleteStore, findAssoc, h] using ih

/-! ## Merge/dedup lemmas -/

theorem dedupById_concat (l : List WebActivity) (e : WebActivity) :
    dedupById (l ++ [e]) = insertById (dedupById l) e := by
  simp [dedupById, List.foldl_append]

/-- Filtering by the replaced id after the `Map.set` replacement pass. -/
theorem filter_map_replace_self (acc : List WebActivity) (e : WebActivity) :
    (acc.map (fun x => if x.id = e.id then e else x)).filter (fun x => x.id = e.id)
      = (acc.filter (fun x => x.id = e.id)).map (fun _ => e) := by
  induction acc with
  | nil => simp
  | cons a t ih =>
      by_cases ha : a.id = e.id
      · simp [ha, ih]
      · simp [ha, ih]

/-- Filtering by any other id is unchanged by the replacement pass. -/
theorem filter_map_replace_ne (acc : List WebActivity) (e : WebActivity) (k : String)
    (hk : ¬(e.id = k)) :
    (acc.map (fun x => if x.id = e.id then e else x)).filter (fun x => x.id = k)
      = acc.filter (fun x => x.id = k) := by
  induction acc with
  | nil => simp
  | cons a t ih =>
      by_cases ha : a.id = e.id
      · have hak : ¬(a.id = k) := by rw [ha]; exact hk
        simp [ha, hak, hk, ih]
      · have hke : ¬(k = e.id) := fun hh => hk hh.symm
        by_cases hak : a.id = k <;> simp [ha, hak, hke, ih]

/-- Effect of one `Map.set` on the id-filtered entries, assuming the
accumulator holds at most one entry for `e.id`. -/
theorem insertById_filter (acc : List WebActivity) (e : WebActivity) (k : String)
    (hb : (acc.filter (fun x => x.id = e.id)).length ≤ 1) :
    (insertById acc e).filter (fun x => x.id = k)
      = if e.id = k then [e] else acc.filter (fun x => x.id = k) := by
  unfold insertById
  by_cases hmem : acc.any (fun x => x.id = e.id) = true
  · rw [if_pos hmem]
    by_cases hk : e.id = k
    · subst hk
      rw [if_pos rfl, filter_map_replace_self]
      obtain ⟨x, hx, hxe⟩ := List.any_eq_true.mp hmem
      have hxmem : x ∈ acc.filter (fun x => x.id = e.id) :=
        List.mem_filter.mpr ⟨hx, hxe⟩
      match hflt : acc.filter (fun x => x.id = e.id) with
      | [] => rw [hflt] at hxmem; cases hxmem
      | [y] => rw [hflt]; rfl
      | y :: z :: rest => rw [hflt] at hb; simp at hb
    · rw [if_neg hk, filter_map_replace_ne _ _ _ hk]
  · rw [if_neg hmem, List.filter_append]
    by_cases hk : e.id = k
    · subst hk
      rw [if_pos rfl]
      have hfe : acc.filter (fun x => x.id = e.id) = [] := by
        rw [List.filter_eq_nil_iff]
        intro x hx hxe
        exact hmem (List.any_eq_true.mpr ⟨x, hx, hxe⟩)
      rw [hfe]
      simp
    · rw [if_neg hk]
      simp [hk]

/-- The deduplicated list holds, for each id, exactly the LAST occurrence
of that id in the input (JS `Map` last-write-wins). -/
theorem dedupById_filter (l : List WebActivity) :
    ∀ k : String,
      (dedupById l).filter (fun x => x.id = k)
        = ((l.filter (fun x => x.id = k)).getLast?).toList := by
  induction l using List.reverseRecOn with
  | nil => intro k; rfl
  | append_singleton l e ih =>
      intro k
      rw [dedupById_concat]
      have hb : ((dedupById l).filter (fun x => x.id = e.id)).length ≤ 1 := by
        rw [ih e.id]
        cases (l.filter (fun x => x.id = e.id)).getLast? <;> simp
      rw [insertById_filter _ _ _ hb, List.filter_append]
      by_cases hk : e.id = k
      · rw [if_pos hk]
        have he : List.filter (fun x => decide (x.id = k)) [e] = [e] := by simp [hk]
        rw [he, List.getLast?_concat]
        rfl
      · rw [if_neg hk]
        have he : List.filter (fun x => decide (x.id = k)) [e] = [] := by simp [hk]
        rw [he, List.append_nil, ih]

/-! ## Remaining claim theorems -/

/-- C5: in the merged output, the entries with a given id are exactly the
last occurrence of that id in the concatenation of the sources; in
particular for sources `[A, B]` with the id present in `B`, the merged
entry equals B's (last) version. -/
theorem mergeSources_last_occurrence :
    (∀ (sources : List (List WebActivity)) (k : String),
       (mergeSources sources).filter (fun x => x.id = k)
         = (((sources.flatten).filter (fun x => x.id = k)).getLast?).toList)
    ∧ ∀ (A B : List WebActivity) (k : String),
        B.filter (fun x => x.id = k) ≠ [] →
        (mergeSources [A, B]).filter (fun x => x.id = k)
          = ((B.filter (fun x => x.id = k)).getLast?).toList := by
  have main : ∀ (sources : List (List WebActivity)) (k : String),
      (mergeSources sources).filter (fun x => x.id = k)
        = (((sources.flatten).filter (fun x => x.id = k)).getLast?).toList := by
    intro sources k
    have hperm : ((mergeSources sources).filter (fun x => x.id = k)).Perm
        ((dedupById sources.flatten).filter (fun x => x.id = k)) :=
      (List.perm_insertionSort _ _).filter _
    rw [dedupById_filter] at hperm
    have key : ∀ (m : List WebActivity) (o : Option WebActivity),
        m.Perm o.toList → m = o.toList := by
      intro m o hp
      cases o with
      | none => exact hp.eq_nil
      | some b => exact List.perm_singleton.mp hp
    exact key _ _ hperm
  refine ⟨main, ?_⟩
  intro A B k hB
  rw [main [A, B] k]
  have hflat : ([A, B] : List (List WebActivity)).flatten = A ++ B := by simp
  rw [hflat, List.filter_append, List.getLast?_append_of_ne_nil _ hB]

/-- C5 witness: sources A and B both contain id "42"; the merged entry
for "42" is B's version. -/
theorem mergeSources_last_occurrence_witness :
    (mergeSources [sourceAlist, sourceBlist]).filter (fun x => x.id = "42")
      = ((sourceBlist.filter (fun x => x.id = "42")).getLast?).toList :=
  mergeSources_last_occurrence.2 sourceAlist sourceBlist "42" (by decide)

/-- C6: the merged, deduplicated output is non-increasing in timestamp:
every pair of adjacent elements `x, y` satisfies
`y.created_at ≤ x.created_at`, for every input list of sources. -/
theorem mergeSources_sorted_desc (sources : List (List WebActivity)) :
    List.Chain' (fun x y => y.created_at ≤ x.created_at) (mergeSources sources) := by
  have hs : List.Sorted (fun x y : WebActivity => y.created_at ≤ x.created_at)
      (sortByTimeDesc (dedupById sources.flatten)) := by
    haveI : IsTotal WebActivity (fun x y => y.created_at ≤ x.created_at) :=
      ⟨fun a b => le_total b.created_at a.created_at⟩
    haveI : IsTrans WebActivity (fun x y => y.created_at ≤ x.created_at) :=
      ⟨fun _ _ _ hab hbc => le_trans hbc hab⟩
    exact List.sorted_insertionSort _ _
  exact List.Pairwise.chain' hs

/-- C7: a Watch/Fork event whose actor is not the tracked user is kept by
both relevance filters exactly when its repository full name starts with
`<username>/`; in particular bob's WatchEvent on `alice/proj` is kept for
user `alice` and the same event on `carol/other` is dropped. -/
theorem watch_fork_kept_iff_owned :
    (∀ (u : String) (e : WebActivity),
       e.type = "WatchEvent" ∨ e.type = "ForkEvent" →
       e.actorLogin ≠ u →
       (keepReceivedEventApp u e = true ↔ jsStartsWith e.repoName (u ++ "/") = true)
       ∧ (keepReceivedEventHook u e = true ↔ jsStartsWith e.repoName (u ++ "/") = true))
    ∧ keepReceivedEventApp "alice" watchBobOnAliceRepo = true
    ∧ keepReceivedEventHook "alice" watchBobOnAliceRepo = true
    ∧ keepReceivedEventApp "alice" watchBobOnCarolRepo = false
    ∧ keepReceivedEventHook "alice" watchBobOnCarolRepo = false := by
  refine ⟨?_, by decide, by decide, by decide, by decide⟩
  intro u e hty hactor
  rcases hty with h | h
  all_goals constructor
  all_goals
    by_cases hs : jsStartsWith e.repoName (u ++ "/") = true
  all_goals
    simp [keepReceivedEventApp, keepReceivedEventHook, h, hactor, hs]

/-- C7 witness: the iff instantiated at bob's WatchEvent on alice's
repository. -/
theorem watch_fork_kept_iff_owned_witness :
    (keepReceivedEventApp "alice" watchBobOnAliceRepo = true
      ↔ jsStartsWith watchBobOnAliceRepo.repoName ("alice" ++ "/") = true)
    ∧ (keepReceivedEventHook "alice" watchBobOnAliceRepo = true
      ↔ jsStartsWith watchBobOnAliceRepo.repoName ("alice" ++ "/") = true) :=
  watch_fork_kept_iff_owned.1 "alice" watchBobOnAliceRepo (Or.inl rfl) (by decide)

/-- C8: after `set(k, v, t)` at time `n`, a `get(k)` before `t` seconds
have elapsed returns `v`; after `t` seconds have elapsed it returns
absent and deletes the stale entry on that read; with no ttl the value is
returned regardless of elapsed time. -/
theorem cache_ttl_contract :
    ∀ (V : Type) (store : CacheStore V) (k : String) (v : V) (n t r : Int),
      0 ≤ n → 0 < t →
      (r < n + t * 1000 →
        cacheGet (cacheSet store k v n (some t) true) k r
          = (some v, cacheSet store k v n (some t) true))
      ∧ (n + t * 1000 < r →
          cacheGet (cacheSet store k v n (some t) true) k r
            = (none, deleteStore (cacheSet store k v n (some t) true) k)
          ∧ findAssoc (deleteStore (cacheSet store k v n (some t) true) k) k
              = (none : Option (CacheEntry V)))
      ∧ ∀ r' : Int,
          cacheGet (cacheSet store k v n none true) k r'
            = (some v, cacheSet store k v n none true) := by
  intro V store k v n t r hn ht
  have htz : t ≠ 0 := ne_of_gt ht
  refine ⟨?_, ?_, ?_⟩
  · intro hr
    have hcond : ¬(n + t * 1000 ≠ 0 ∧ n + t * 1000 < r) := by omega
    simp [cacheSet, htz, cacheGet, readStore, writeStore, findAssoc, cacheGetAux, hcond]
  · intro hr
    have hx : n + t * 1000 ≠ 0 := by omega
    constructor
    · simp [cacheSet, htz, cacheGet, readStore, writeStore, findAssoc, cacheGetAux, hx, hr]
    · simp [cacheSet, htz, writeStore, deleteStore, findAssoc, findAssoc_deleteStore_self]
  · intro r'
    simp [cacheSet, cacheGet, readStore, writeStore, findAssoc, cacheGetAux]

/-- C8 witness: `set("k", 42, 5)` at time 1000; `get` at 5999 returns the
value, `get` at 7000 returns absent and the entry is gone. -/
theorem cache_ttl_contract_witness :
    (cacheGet (cacheSet ([] : CacheStore Nat) "k" 42 1000 (some 5) true) "k" 5999
      = (some 42, cacheSet ([] : CacheStore Nat) "k" 42 1000 (some 5) true))
    ∧ (cacheGet (cacheSet ([] : CacheStore Nat) "k" 42 1000 (some 5) true) "k" 7000
        = (none, deleteStore (cacheSet ([] : CacheStore Nat) "k" 42 1000 (some 5) true) "k")
      ∧ findAssoc (deleteStore (cacheSet ([] : CacheStore Nat) "k" 42 1000 (some 5) true) "k") "k"
          = (none : Option (CacheEntry Nat))) :=
  ⟨(cache_ttl_contract Nat [] "k" 42 1000 5 5999 (by decide) (by decide)).1 (by decide),
   (cache_ttl_contract Nat [] "k" 42 1000 5 7000 (by decide) (by decide)).2.1 (by decide)⟩

/-- C9: a failing read of the underlying store (I/O error or unparseable
JSON) makes `get` behave exactly like a cache miss (absent, no
exception), and a failing persist leaves `set` returning normally with
the store unchanged. -/
theorem cache_failure_degrades_to_miss :
    ∀ (V : Type) (now : Int),
      cacheGetAux (CacheRead.ioError : CacheRead V) now
          = cacheGetAux (CacheRead.missing : CacheRead V) now
      ∧ cacheGetAux (CacheRead.corrupt : CacheRead V) now
          = cacheGetAux (CacheRead.missing : CacheRead V) now
      ∧ cacheGetAux (CacheRead.ioError : CacheRead V) now = (none, false)
      ∧ ∀ (store : CacheStore V) (k : String) (v : V) (n : Int) (t : Option Int),
          cacheSet store k v n t false = store := by
  intro V now
  exact ⟨rfl, rfl, rfl, fun _ _ _ _ _ => rfl⟩

end GHTracker
